import Mathlib

/-!
# TELEVISION-SIMULATOR: the `TV` state object and its `Remote`

A shallow embedding of `tv.hpp` (the two copies of the header differ only in
comments, indentation and `constexpr`).

* `unsigned char` values are natural numbers below `256`; the bit-field
  `state_mode : 2` holds a natural number below `4`, `padding : 6` one below
  `64`.  Every store into a field reduces modulo the width of the field.
* A `void` member function that mutates `*this` is a function `TV → TV`.
* `std::cout` is the text written so far; `display_settings` takes it and
  returns it with whatever the call appended.
-/

namespace compuSUAVE_Professional

/-- Bit 0 of the state byte: `0x1`, set means on. -/
def OFF_ON : Nat := 0x1

/-- Bit 1 of the state byte: `0x1 << 1`, set means antenna. -/
def CABLE_ANTENNA : Nat := 0x1 <<< 1

/-- Lowest channel: `0x1`. -/
def MINIMUM_CHANNEL : Nat := 0x1

/-- Highest channel: `0x1 << 7`. -/
def MAXIMUM_CHANNEL : Nat := 0x1 <<< 7

/-- The three data members of `class TV`. -/
structure TV where
  /-- The field `unsigned char state_mode : 2`. -/
  state_mode : Nat
  /-- The field `unsigned char padding : 6`. -/
  padding : Nat
  /-- The field `unsigned char channel`. -/
  channel : Nat
  deriving DecidableEq, Repr

/-- The values the member types can hold: two bits, six bits, eight bits. -/
def TV.WellFormed (tv : TV) : Prop :=
  tv.state_mode < 2 ^ 2 ∧ tv.padding < 2 ^ 6 ∧ tv.channel < 2 ^ 8

instance (tv : TV) : Decidable tv.WellFormed := by
  unfold TV.WellFormed; infer_instance

/-- The constructor `TV::TV(initial_state_mode, initial_channel)`, named
`ctor` because `TV.TV` would shadow the type: the member initialisers store
the arguments, the two-bit field keeping the low two bits. -/
def TV.ctor (initial_state_mode initial_channel : Nat) : TV :=
  { state_mode := initial_state_mode % 2 ^ 2
    padding := 0x0 % 2 ^ 6
    channel := initial_channel % 2 ^ 8 }

/-- The constructor called without arguments: both default arguments
`OFF_ON | CABLE_ANTENNA` and `MINIMUM_CHANNEL` are used. -/
def TV.default : TV :=
  TV.ctor (OFF_ON ||| CABLE_ANTENNA) MINIMUM_CHANNEL

/-- The member `TV::toggle_state`: `state_mode ^= OFF_ON`. -/
def TV.toggle_state (tv : TV) : TV :=
  { tv with state_mode := (tv.state_mode ^^^ OFF_ON) % 2 ^ 2 }

/-- The member `TV::toggle_mode`: `state_mode ^= CABLE_ANTENNA`. -/
def TV.toggle_mode (tv : TV) : TV :=
  { tv with state_mode := (tv.state_mode ^^^ CABLE_ANTENNA) % 2 ^ 2 }

/-- The member `TV::change_channel_up`. -/
def TV.change_channel_up (tv : TV) : TV :=
  if tv.channel < MAXIMUM_CHANNEL then
    { tv with channel := (tv.channel + 1) % 2 ^ 8 }
  else
    { tv with channel := MINIMUM_CHANNEL }

/-- The member `TV::change_channel_down`; `channel--` on an unsigned byte is
adding `2 ^ 8 - 1` modulo `2 ^ 8`. -/
def TV.change_channel_down (tv : TV) : TV :=
  if tv.channel > MINIMUM_CHANNEL then
    { tv with channel := (tv.channel + (2 ^ 8 - 1)) % 2 ^ 8 }
  else
    { tv with channel := MAXIMUM_CHANNEL }

/-- The member `TV::display_settings`: `cout` is the text on the stream
before the call, the result the text after it.  `std::endl` writes a line
feed, `(int)channel` is written in decimal. -/
def TV.display_settings (tv : TV) (cout : String) : String :=
  if tv.state_mode &&& OFF_ON ≠ 0 then
    let cout := cout ++ "Mode: " ++
      (if tv.state_mode &&& CABLE_ANTENNA ≠ 0 then "Antenna" else "Cable") ++ "\n"
    cout ++ "Channel: " ++ toString (Int.ofNat tv.channel) ++ "\n"
  else
    cout

/-- The static `Remote::toggle_state`. -/
def Remote.toggle_state (tv : TV) : TV := tv.toggle_state

/-- The static `Remote::toggle_mode`. -/
def Remote.toggle_mode (tv : TV) : TV := tv.toggle_mode

/-- The static `Remote::change_channel_up`. -/
def Remote.change_channel_up (tv : TV) : TV := tv.change_channel_up

/-- The static `Remote::change_channel_down`. -/
def Remote.change_channel_down (tv : TV) : TV := tv.change_channel_down

/-- The static `Remote::change_channel`, the friend of `TV` that writes the
private member `channel` itself. -/
def Remote.change_channel (tv : TV) (channel : Nat) : TV :=
  if channel ≥ MINIMUM_CHANNEL ∧ channel ≤ MAXIMUM_CHANNEL then
    { tv with channel := channel }
  else
    tv

/-- The static `Remote::display_settings`. -/
def Remote.display_settings (tv : TV) (cout : String) : String :=
  tv.display_settings cout

/-- The test `state_mode & OFF_ON` that `display_settings` makes: the
power flag. -/
def TV.is_on (tv : TV) : Bool :=
  decide (tv.state_mode &&& OFF_ON ≠ 0)

/-- The test `state_mode & CABLE_ANTENNA` that `display_settings` makes:
the input mode, `true` for antenna and `false` for cable. -/
def TV.is_antenna (tv : TV) : Bool :=
  decide (tv.state_mode &&& CABLE_ANTENNA ≠ 0)

/-- One call a client can make on a `TV` through `Remote`, with its
argument. -/
inductive Op where
  | toggle_state
  | toggle_mode
  | change_channel_up
  | change_channel_down
  | change_channel (channel : Nat)
  deriving DecidableEq, Repr

/-- The effect of one call on the `TV` passed by reference. -/
def Op.apply : Op → TV → TV
  | .toggle_state, tv => Remote.toggle_state tv
  | .toggle_mode, tv => Remote.toggle_mode tv
  | .change_channel_up, tv => Remote.change_channel_up tv
  | .change_channel_down, tv => Remote.change_channel_down tv
  | .change_channel channel, tv => Remote.change_channel tv channel

/-- A finite sequence of calls, made from left to right. -/
def run (ops : List Op) (tv : TV) : TV :=
  ops.foldl (fun t op => op.apply t) tv

/-- The number a string of decimal digits denotes, most significant digit
first. -/
def readDecimal (s : String) : Nat :=
  s.data.foldl (fun acc c => 10 * acc + (c.toNat - '0'.toNat)) 0

/-- The string `s` is the decimal numeral of `n` without padding: it is not
empty, has only the characters `0` to `9`, denotes `n`, and starts with `0`
only when it is the single character `0`. -/
def IsUnpaddedDecimal (s : String) (n : Nat) : Prop :=
  s.data ≠ [] ∧ (∀ c ∈ s.data, '0'.toNat ≤ c.toNat ∧ c.toNat ≤ '9'.toNat) ∧
    readDecimal s = n ∧ (s.data.head? = some '0' → s.data.length = 1)

instance (s : String) (n : Nat) : Decidable (IsUnpaddedDecimal s n) := by
  unfold IsUnpaddedDecimal; infer_instance

/-- The same member function called `n` times in a row on one object. -/
def repeat_call (f : TV → TV) : Nat → TV → TV
  | 0, tv => tv
  | n + 1, tv => f (repeat_call f n tv)

/-- The member functions that `class TV` declares besides its constructor;
the class has no other member. -/
inductive TV.Member where
  | toggle_state
  | toggle_mode
  | change_channel_up
  | change_channel_down
  | display_settings
  deriving DecidableEq, Repr

/-- One call of a member function of `TV`, on the object and the stream. -/
def TV.Member.call : TV.Member → TV × String → TV × String
  | .toggle_state, (tv, cout) => (tv.toggle_state, cout)
  | .toggle_mode, (tv, cout) => (tv.toggle_mode, cout)
  | .change_channel_up, (tv, cout) => (tv.change_channel_up, cout)
  | .change_channel_down, (tv, cout) => (tv.change_channel_down, cout)
  | .display_settings, (tv, cout) => (tv, tv.display_settings cout)

/-! ## Bits of the state byte -/

theorem and_OFF_ON_ne_zero_iff (s : Nat) : s &&& OFF_ON ≠ 0 ↔ s.testBit 0 = true := by
  unfold OFF_ON
  rw [Nat.and_one_is_mod, Nat.testBit_zero]
  simp

theorem and_CABLE_ANTENNA_ne_zero_iff (s : Nat) :
    s &&& CABLE_ANTENNA ≠ 0 ↔ s.testBit 1 = true := by
  have h := Nat.and_two_pow s 1
  have hc : CABLE_ANTENNA = 2 ^ 1 := by decide
  rw [hc, h]
  cases s.testBit 1 <;> simp

theorem TV.is_on_eq_testBit (tv : TV) : tv.is_on = tv.state_mode.testBit 0 := by
  unfold TV.is_on
  rw [Bool.eq_iff_iff, decide_eq_true_iff]
  exact and_OFF_ON_ne_zero_iff tv.state_mode

theorem TV.is_antenna_eq_testBit (tv : TV) : tv.is_antenna = tv.state_mode.testBit 1 := by
  unfold TV.is_antenna
  rw [Bool.eq_iff_iff, decide_eq_true_iff]
  exact and_CABLE_ANTENNA_ne_zero_iff tv.state_mode

/-! ## Stepping the channel -/

/-- C1: on a state whose channel `c` is in `[1, 128]`, whatever the power
and the mode, `change_channel_up` gives channel `1` when `c = 128` and
channel `c + 1` when `c < 128`. -/
theorem change_channel_up_in_range (tv : TV)
    (hlo : 1 ≤ tv.channel) (hhi : tv.channel ≤ 128) :
    (tv.channel = 128 → tv.change_channel_up.channel = 1) ∧
      (tv.channel < 128 → tv.change_channel_up.channel = tv.channel + 1) := by
  unfold TV.change_channel_up MAXIMUM_CHANNEL MINIMUM_CHANNEL
  constructor
  · intro h
    simp [h]
  · intro h
    have h1 : tv.channel < 1 <<< 7 := by simpa using h
    rw [if_pos h1]
    show (tv.channel + 1) % 2 ^ 8 = tv.channel + 1
    omega

theorem change_channel_up_in_range_witness :
    (TV.mk 3 0 128).change_channel_up.channel = 1 ∧
      (TV.mk 0 0 127).change_channel_up.channel = 127 + 1 :=
  ⟨(change_channel_up_in_range ⟨3, 0, 128⟩ (by decide) (by decide)).1 rfl,
   (change_channel_up_in_range ⟨0, 0, 127⟩ (by decide) (by decide)).2 (by decide)⟩

/-- C2: on a state whose channel `c` is in `[1, 128]`, whatever the power
and the mode, `change_channel_down` gives channel `128` when `c = 1` and
channel `c - 1` when `c > 1`. -/
theorem change_channel_down_in_range (tv : TV)
    (hlo : 1 ≤ tv.channel) (hhi : tv.channel ≤ 128) :
    (tv.channel = 1 → tv.change_channel_down.channel = 128) ∧
      (1 < tv.channel → tv.change_channel_down.channel = tv.channel - 1) := by
  unfold TV.change_channel_down MAXIMUM_CHANNEL MINIMUM_CHANNEL
  constructor
  · intro h
    simp [h]
  · intro h
    have h1 : tv.channel > 0x1 := h
    rw [if_pos h1]
    show (tv.channel + (2 ^ 8 - 1)) % 2 ^ 8 = tv.channel - 1
    omega

theorem change_channel_down_in_range_witness :
    (TV.mk 1 0 1).change_channel_down.channel = 128 ∧
      (TV.mk 2 0 128).change_channel_down.channel = 128 - 1 :=
  ⟨(change_channel_down_in_range ⟨1, 0, 1⟩ (by decide) (by decide)).1 rfl,
   (change_channel_down_in_range ⟨2, 0, 128⟩ (by decide) (by decide)).2 (by decide)⟩

/-! ## Setting the channel -/

/-- C3: for every state and every 8-bit value `v`, `Remote::change_channel`
sets the channel to exactly `v` when `1 ≤ v ≤ 128` and returns the whole
state unchanged when `v = 0` or `v > 128`; on the default `TV` the value
`200` leaves the channel at `1`. -/
theorem change_channel_validated (tv : TV) (v : Nat) (hv : v < 2 ^ 8) :
    (1 ≤ v ∧ v ≤ 128 → (Remote.change_channel tv v).channel = v) ∧
      (v = 0 ∨ 128 < v → Remote.change_channel tv v = tv) ∧
      (Remote.change_channel TV.default 200).channel = 1 := by
  refine ⟨?_, ?_, by decide⟩
  · intro h
    have hg : v ≥ MINIMUM_CHANNEL ∧ v ≤ MAXIMUM_CHANNEL := h
    unfold Remote.change_channel
    rw [if_pos hg]
  · intro h
    have hg : ¬ (v ≥ MINIMUM_CHANNEL ∧ v ≤ MAXIMUM_CHANNEL) := by
      have h1 : MINIMUM_CHANNEL = 1 := rfl
      have h2 : MAXIMUM_CHANNEL = 128 := rfl
      rw [h1, h2]
      omega
    unfold Remote.change_channel
    rw [if_neg hg]

theorem change_channel_validated_witness :
    (Remote.change_channel ⟨1, 0, 7⟩ 128).channel = 128 ∧
      Remote.change_channel ⟨1, 0, 7⟩ 0 = ⟨1, 0, 7⟩ ∧
      Remote.change_channel ⟨1, 0, 7⟩ 129 = ⟨1, 0, 7⟩ ∧
      Remote.change_channel ⟨1, 0, 7⟩ 255 = ⟨1, 0, 7⟩ :=
  ⟨(change_channel_validated ⟨1, 0, 7⟩ 128 (by decide)).1 (by decide),
   (change_channel_validated ⟨1, 0, 7⟩ 0 (by decide)).2.1 (by decide),
   (change_channel_validated ⟨1, 0, 7⟩ 129 (by decide)).2.1 (by decide),
   (change_channel_validated ⟨1, 0, 7⟩ 255 (by decide)).2.1 (by decide)⟩

/-! ## The channel range `[1, 128]` -/

theorem Op.apply_channel_range (op : Op) (tv : TV)
    (h : 1 ≤ tv.channel ∧ tv.channel ≤ 128) :
    1 ≤ (op.apply tv).channel ∧ (op.apply tv).channel ≤ 128 := by
  cases op with
  | toggle_state => exact h
  | toggle_mode => exact h
  | change_channel_up =>
    show 1 ≤ tv.change_channel_up.channel ∧ tv.change_channel_up.channel ≤ 128
    unfold TV.change_channel_up MAXIMUM_CHANNEL MINIMUM_CHANNEL
    split
    · rename_i hlt
      have hlt : tv.channel < 128 := hlt
      show 1 ≤ (tv.channel + 1) % 2 ^ 8 ∧ (tv.channel + 1) % 2 ^ 8 ≤ 128
      omega
    · show 1 ≤ 0x1 ∧ 0x1 ≤ 128
      decide
  | change_channel_down =>
    show 1 ≤ tv.change_channel_down.channel ∧ tv.change_channel_down.channel ≤ 128
    unfold TV.change_channel_down MAXIMUM_CHANNEL MINIMUM_CHANNEL
    split
    · rename_i hgt
      have hgt : tv.channel > 1 := hgt
      show 1 ≤ (tv.channel + (2 ^ 8 - 1)) % 2 ^ 8 ∧ (tv.channel + (2 ^ 8 - 1)) % 2 ^ 8 ≤ 128
      omega
    · show 1 ≤ 0x1 <<< 7 ∧ 0x1 <<< 7 ≤ 128
      decide
  | change_channel v =>
    show 1 ≤ (Remote.change_channel tv v).channel ∧ (Remote.change_channel tv v).channel ≤ 128
    unfold Remote.change_channel
    split
    · rename_i hg
      exact hg
    · exact h

theorem run_channel_range (ops : List Op) :
    ∀ tv : TV, 1 ≤ tv.channel ∧ tv.channel ≤ 128 →
      1 ≤ (run ops tv).channel ∧ (run ops tv).channel ≤ 128 := by
  induction ops with
  | nil => intro tv h; exact h
  | cons op rest ih =>
    intro tv h
    exact ih (op.apply tv) (Op.apply_channel_range op tv h)

/-- C4, evaluated where it fails: the constructor stores the channel it is
given, so `TV(3, 0)` has channel `0` and `TV(3, 200)` has channel `200`
before any operation, and after `toggle_state`, `change_channel_down` and a
rejected `change_channel` the second one has channel `199`. -/
theorem ctor_channel_out_of_range :
    (run [] (TV.ctor 3 0)).channel = 0 ∧
      (run [] (TV.ctor 3 200)).channel = 200 ∧
      (run [.toggle_state, .change_channel_down, .change_channel 0] (TV.ctor 3 200)).channel
        = 199 := by
  decide

/-- C5: each of `toggle_state`, `toggle_mode`, `change_channel_up`,
`change_channel_down` and `Remote::change_channel` with any argument takes a
state whose channel is in `[1, 128]` to a state whose channel is in
`[1, 128]`; so the channel is in `[1, 128]` after every finite sequence of
these calls on the default `TV`. -/
theorem channel_range_preserved (tv : TV) (v : Nat)
    (h : 1 ≤ tv.channel ∧ tv.channel ≤ 128) :
    (1 ≤ tv.toggle_state.channel ∧ tv.toggle_state.channel ≤ 128) ∧
      (1 ≤ tv.toggle_mode.channel ∧ tv.toggle_mode.channel ≤ 128) ∧
      (1 ≤ tv.change_channel_up.channel ∧ tv.change_channel_up.channel ≤ 128) ∧
      (1 ≤ tv.change_channel_down.channel ∧ tv.change_channel_down.channel ≤ 128) ∧
      (1 ≤ (Remote.change_channel tv v).channel ∧
        (Remote.change_channel tv v).channel ≤ 128) ∧
      (∀ ops : List Op,
        1 ≤ (run ops TV.default).channel ∧ (run ops TV.default).channel ≤ 128) :=
  ⟨Op.apply_channel_range .toggle_state tv h,
   Op.apply_channel_range .toggle_mode tv h,
   Op.apply_channel_range .change_channel_up tv h,
   Op.apply_channel_range .change_channel_down tv h,
   Op.apply_channel_range (.change_channel v) tv h,
   fun ops => run_channel_range ops TV.default (by decide)⟩

theorem channel_range_preserved_witness :
    (1 ≤ (TV.mk 3 0 128).change_channel_up.channel ∧
        (TV.mk 3 0 128).change_channel_up.channel ≤ 128) ∧
      (1 ≤ (Remote.change_channel ⟨3, 0, 128⟩ 255).channel ∧
        (Remote.change_channel ⟨3, 0, 128⟩ 255).channel ≤ 128) :=
  ⟨(channel_range_preserved ⟨3, 0, 128⟩ 255 (by decide)).2.2.1,
   (channel_range_preserved ⟨3, 0, 128⟩ 255 (by decide)).2.2.2.2.1⟩

/-! ## Construction and the two toggles -/

/-- C6: a `TV` constructed without arguments is on (bit 0 of `state_mode`
is set), is in antenna mode (bit 1 of `state_mode` is set) and has
channel `1`. -/
theorem default_is_on_antenna_channel_one :
    TV.default.is_on = true ∧ TV.default.state_mode.testBit 0 = true ∧
      TV.default.is_antenna = true ∧ TV.default.state_mode.testBit 1 = true ∧
      TV.default.channel = 1 := by
  decide

theorem toggle_state_state_mode (tv : TV) (h : tv.state_mode < 2 ^ 2) :
    tv.toggle_state.toggle_state.state_mode = tv.state_mode ∧
      tv.toggle_state.is_on = !tv.is_on ∧
      tv.toggle_state.is_antenna = tv.is_antenna := by
  have key : ∀ s < 2 ^ 2,
      ((s ^^^ OFF_ON) % 2 ^ 2 ^^^ OFF_ON) % 2 ^ 2 = s ∧
        decide ((s ^^^ OFF_ON) % 2 ^ 2 &&& OFF_ON ≠ 0) = !decide (s &&& OFF_ON ≠ 0) ∧
        decide ((s ^^^ OFF_ON) % 2 ^ 2 &&& CABLE_ANTENNA ≠ 0)
          = decide (s &&& CABLE_ANTENNA ≠ 0) := by
    decide
  exact key tv.state_mode h

theorem toggle_mode_state_mode (tv : TV) (h : tv.state_mode < 2 ^ 2) :
    tv.toggle_mode.toggle_mode.state_mode = tv.state_mode ∧
      tv.toggle_mode.is_antenna = !tv.is_antenna ∧
      tv.toggle_mode.is_on = tv.is_on := by
  have key : ∀ s < 2 ^ 2,
      ((s ^^^ CABLE_ANTENNA) % 2 ^ 2 ^^^ CABLE_ANTENNA) % 2 ^ 2 = s ∧
        decide ((s ^^^ CABLE_ANTENNA) % 2 ^ 2 &&& CABLE_ANTENNA ≠ 0)
          = !decide (s &&& CABLE_ANTENNA ≠ 0) ∧
        decide ((s ^^^ CABLE_ANTENNA) % 2 ^ 2 &&& OFF_ON ≠ 0) = decide (s &&& OFF_ON ≠ 0) := by
    decide
  exact key tv.state_mode h

/-- C7: for every state (its fields within their widths),
`toggle_state` applied twice and `toggle_mode` applied twice each give back
the whole state. -/
theorem toggle_twice (tv : TV) (h : tv.WellFormed) :
    tv.toggle_state.toggle_state = tv ∧ tv.toggle_mode.toggle_mode = tv := by
  have hs := (toggle_state_state_mode tv h.1).1
  have hm := (toggle_mode_state_mode tv h.1).1
  obtain ⟨s, p, c⟩ := tv
  constructor
  · simp only [TV.toggle_state, TV.mk.injEq, and_true] at hs ⊢
    exact hs
  · simp only [TV.toggle_mode, TV.mk.injEq, and_true] at hm ⊢
    exact hm

theorem toggle_twice_witness :
    (TV.mk 2 0 128).toggle_state.toggle_state = ⟨2, 0, 128⟩ ∧
      (TV.mk 2 0 128).toggle_mode.toggle_mode = ⟨2, 0, 128⟩ :=
  toggle_twice ⟨2, 0, 128⟩ (by decide)

/-- C8: for every state (its fields within their widths) and every
argument `v`, `toggle_state` flips the power flag and keeps the input mode
and the channel; `toggle_mode` flips the input mode and keeps the power flag
and the channel; `change_channel_up`, `change_channel_down` and
`Remote::change_channel` keep `state_mode`, hence the power flag and the
input mode. -/
theorem no_cross_field_effects (tv : TV) (v : Nat) (h : tv.WellFormed) :
    (tv.toggle_state.is_on = !tv.is_on ∧
        tv.toggle_state.is_antenna = tv.is_antenna ∧
        tv.toggle_state.channel = tv.channel) ∧
      (tv.toggle_mode.is_antenna = !tv.is_antenna ∧
        tv.toggle_mode.is_on = tv.is_on ∧
        tv.toggle_mode.channel = tv.channel) ∧
      (tv.change_channel_up.state_mode = tv.state_mode ∧
        tv.change_channel_up.is_on = tv.is_on ∧
        tv.change_channel_up.is_antenna = tv.is_antenna) ∧
      (tv.change_channel_down.state_mode = tv.state_mode ∧
        tv.change_channel_down.is_on = tv.is_on ∧
        tv.change_channel_down.is_antenna = tv.is_antenna) ∧
      ((Remote.change_channel tv v).state_mode = tv.state_mode ∧
        (Remote.change_channel tv v).is_on = tv.is_on ∧
        (Remote.change_channel tv v).is_antenna = tv.is_antenna) := by
  have hs := toggle_state_state_mode tv h.1
  have hm := toggle_mode_state_mode tv h.1
  refine ⟨⟨hs.2.1, hs.2.2, rfl⟩, ⟨hm.2.1, hm.2.2, rfl⟩, ?_, ?_, ?_⟩
  · have hu : tv.change_channel_up.state_mode = tv.state_mode := by
      unfold TV.change_channel_up
      split <;> rfl
    exact ⟨hu, by unfold TV.is_on; rw [hu], by unfold TV.is_antenna; rw [hu]⟩
  · have hd : tv.change_channel_down.state_mode = tv.state_mode := by
      unfold TV.change_channel_down
      split <;> rfl
    exact ⟨hd, by unfold TV.is_on; rw [hd], by unfold TV.is_antenna; rw [hd]⟩
  · have hc : (Remote.change_channel tv v).state_mode = tv.state_mode := by
      unfold Remote.change_channel
      split <;> rfl
    exact ⟨hc, by unfold TV.is_on; rw [hc], by unfold TV.is_antenna; rw [hc]⟩

theorem no_cross_field_effects_witness :
    ((TV.mk 1 0 128).toggle_state.is_on = !(TV.mk 1 0 128).is_on ∧
        (TV.mk 1 0 128).toggle_state.is_antenna = (TV.mk 1 0 128).is_antenna ∧
        (TV.mk 1 0 128).toggle_state.channel = 128) ∧
      ((TV.mk 1 0 128).toggle_mode.is_antenna = !(TV.mk 1 0 128).is_antenna ∧
        (TV.mk 1 0 128).toggle_mode.is_on = (TV.mk 1 0 128).is_on ∧
        (TV.mk 1 0 128).toggle_mode.channel = 128) :=
  ⟨(no_cross_field_effects ⟨1, 0, 128⟩ 9 (by decide)).1,
   (no_cross_field_effects ⟨1, 0, 128⟩ 9 (by decide)).2.1⟩

/-! ## What `display_settings` writes -/

set_option maxRecDepth 1000000 in
theorem toString_byte_unpadded :
    ∀ n < 2 ^ 8, IsUnpaddedDecimal (toString n) n := by
  decide

/-- C9: for every state whose power bit is set (its channel an 8-bit
value), `display_settings` appends to the stream exactly the line
`Mode: Antenna` when the mode bit is set and `Mode: Cable` otherwise, then
the line `Channel: ` followed by the channel as a decimal numeral without
padding, each line ended by a line feed; the default `TV` writes
`Mode: Antenna\nChannel: 1\n` and the default `TV` after one `toggle_mode`
writes `Mode: Cable\nChannel: 1\n`. -/
theorem display_settings_on (tv : TV) (cout : String)
    (hon : tv.state_mode.testBit 0 = true) (hch : tv.channel < 2 ^ 8) :
    (tv.display_settings cout =
        cout ++ ("Mode: " ++ (if tv.state_mode.testBit 1 = true then "Antenna" else "Cable")
          ++ "\n" ++ "Channel: " ++ toString tv.channel ++ "\n") ∧
        IsUnpaddedDecimal (toString tv.channel) tv.channel) ∧
      TV.default.display_settings "" = "Mode: Antenna\nChannel: 1\n" ∧
      TV.default.toggle_mode.display_settings "" = "Mode: Cable\nChannel: 1\n" := by
  refine ⟨⟨?_, toString_byte_unpadded tv.channel hch⟩, by decide, by decide⟩
  have h1 : tv.state_mode &&& OFF_ON ≠ 0 := (and_OFF_ON_ne_zero_iff tv.state_mode).2 hon
  have hint : toString (Int.ofNat tv.channel) = toString tv.channel := rfl
  unfold TV.display_settings
  rw [if_pos h1, hint]
  by_cases hm : tv.state_mode.testBit 1 = true
  · have h2 : tv.state_mode &&& CABLE_ANTENNA ≠ 0 :=
      (and_CABLE_ANTENNA_ne_zero_iff tv.state_mode).2 hm
    simp only [if_pos h2, if_pos hm, String.append_assoc]
  · have h2 : ¬ tv.state_mode &&& CABLE_ANTENNA ≠ 0 :=
      fun h => hm ((and_CABLE_ANTENNA_ne_zero_iff tv.state_mode).1 h)
    simp only [if_neg h2, if_neg hm, String.append_assoc]

theorem display_settings_on_witness :
    (TV.mk 1 0 128).display_settings "tv> " =
        "tv> " ++ ("Mode: " ++ (if (1 : Nat).testBit 1 = true then "Antenna" else "Cable")
          ++ "\n" ++ "Channel: " ++ toString 128 ++ "\n") ∧
      IsUnpaddedDecimal (toString 128) 128 :=
  (display_settings_on ⟨1, 0, 128⟩ "tv> " (by decide) (by decide)).1

/-- C10: for every state whose power bit is clear, whatever its mode and
channel, `display_settings` appends nothing to the stream; on an empty
stream the output is empty. -/
theorem display_settings_off (tv : TV) (cout : String)
    (hoff : tv.state_mode.testBit 0 = false) :
    tv.display_settings cout = cout ∧ tv.display_settings "" = "" := by
  have h1 : ¬ tv.state_mode &&& OFF_ON ≠ 0 := by
    intro h
    rw [(and_OFF_ON_ne_zero_iff tv.state_mode).1 h] at hoff
    exact Bool.noConfusion hoff
  unfold TV.display_settings
  rw [if_neg h1, if_neg h1]
  exact ⟨rfl, rfl⟩

theorem display_settings_off_witness :
    (TV.mk 2 0 200).display_settings "tv> " = "tv> " ∧
      (TV.mk 2 0 200).display_settings "" = "" :=
  display_settings_off ⟨2, 0, 200⟩ "tv> " (by decide)

/-! ## Repeated channel steps -/

theorem change_channel_up_eq (tv : TV) :
    tv.change_channel_up =
      { tv with channel := if tv.channel < 128 then (tv.channel + 1) % 2 ^ 8 else 1 } := by
  unfold TV.change_channel_up
  have hmax : MAXIMUM_CHANNEL = 128 := rfl
  have hmin : MINIMUM_CHANNEL = 1 := rfl
  rw [hmax, hmin]
  split <;> rfl

theorem change_channel_down_eq (tv : TV) :
    tv.change_channel_down =
      { tv with channel := if tv.channel > 1 then (tv.channel + (2 ^ 8 - 1)) % 2 ^ 8 else 128 } := by
  unfold TV.change_channel_down
  have hmax : MAXIMUM_CHANNEL = 128 := rfl
  have hmin : MINIMUM_CHANNEL = 1 := rfl
  rw [hmax, hmin]
  split <;> rfl

theorem repeat_up_channel (tv : TV) (hlo : 1 ≤ tv.channel) (hhi : tv.channel ≤ 128) :
    ∀ n : Nat, (repeat_call TV.change_channel_up n tv).channel
      = (tv.channel - 1 + n) % 128 + 1 := by
  intro n
  induction n with
  | zero =>
    show tv.channel = (tv.channel - 1 + 0) % 128 + 1
    omega
  | succ k ih =>
    show (repeat_call TV.change_channel_up k tv).change_channel_up.channel
      = (tv.channel - 1 + (k + 1)) % 128 + 1
    rw [change_channel_up_eq]
    show (if (repeat_call TV.change_channel_up k tv).channel < 128
        then ((repeat_call TV.change_channel_up k tv).channel + 1) % 2 ^ 8 else 1)
      = (tv.channel - 1 + (k + 1)) % 128 + 1
    rw [ih]
    split <;> omega

/-- C11: for every state with channel `c` in `[1, 128]` and every `n`,
`change_channel_up` called `n` times gives channel
`((c - 1 + n) mod 128) + 1`; from the default `TV` 127 calls give channel
`128`, 128 calls give the default state again, and no number of calls
strictly between 0 and 128 gives channel `1`. -/
theorem change_channel_up_n_times (tv : TV) (n : Nat)
    (hlo : 1 ≤ tv.channel) (hhi : tv.channel ≤ 128) :
    (repeat_call TV.change_channel_up n tv).channel = (tv.channel - 1 + n) % 128 + 1 ∧
      (repeat_call TV.change_channel_up 127 TV.default).channel = 128 ∧
      repeat_call TV.change_channel_up 128 TV.default = TV.default ∧
      (∀ k : Nat, 0 < k → k < 128 →
        (repeat_call TV.change_channel_up k TV.default).channel ≠ 1) := by
  have hd : (1 : Nat) ≤ TV.default.channel ∧ TV.default.channel ≤ 128 := by decide
  have h1 : TV.default.channel = 1 := rfl
  refine ⟨repeat_up_channel tv hlo hhi n, ?_, ?_, ?_⟩
  · rw [repeat_up_channel TV.default hd.1 hd.2 127, h1]
  · have hframe : ∀ k : Nat, (repeat_call TV.change_channel_up k TV.default).state_mode = 3 ∧
        (repeat_call TV.change_channel_up k TV.default).padding = 0 := by
      intro k
      induction k with
      | zero => exact ⟨rfl, rfl⟩
      | succ j ih =>
        show (repeat_call TV.change_channel_up j TV.default).change_channel_up.state_mode = 3 ∧
          (repeat_call TV.change_channel_up j TV.default).change_channel_up.padding = 0
        rw [change_channel_up_eq]
        exact ih
    have hc := repeat_up_channel TV.default hd.1 hd.2 128
    rw [h1] at hc
    have hs := hframe 128
    generalize repeat_call TV.change_channel_up 128 TV.default = t at hc hs
    obtain ⟨s, p, c⟩ := t
    simp only at hc hs
    obtain ⟨hs1, hs2⟩ := hs
    subst hs1 hs2 hc
    rfl
  · intro k hk0 hk
    rw [repeat_up_channel TV.default hd.1 hd.2 k, h1]
    omega

theorem change_channel_up_n_times_witness :
    (repeat_call TV.change_channel_up 5 ⟨2, 0, 126⟩).channel = (126 - 1 + 5) % 128 + 1 :=
  (change_channel_up_n_times ⟨2, 0, 126⟩ 5 (by decide) (by decide)).1

/-! ## `Remote` against the members of `TV` -/

/-- C12 as stated fails: `class TV` has no member that sets the channel.
On the default `TV` and an empty stream, `Remote::change_channel` with `5`
gives a state that no member function of `TV` gives. -/
theorem change_channel_is_no_member_call :
    TV.Member.call .toggle_state (TV.default, "")
        ≠ (Remote.change_channel TV.default 5, "") ∧
      TV.Member.call .toggle_mode (TV.default, "")
        ≠ (Remote.change_channel TV.default 5, "") ∧
      TV.Member.call .change_channel_up (TV.default, "")
        ≠ (Remote.change_channel TV.default 5, "") ∧
      TV.Member.call .change_channel_down (TV.default, "")
        ≠ (Remote.change_channel TV.default 5, "") ∧
      TV.Member.call .display_settings (TV.default, "")
        ≠ (Remote.change_channel TV.default 5, "") := by
  decide

/-- C12 amended: `Remote`'s `toggle_state`, `toggle_mode`,
`change_channel_up`, `change_channel_down` and `display_settings` give
exactly the state and the output of the member of `TV` with the same name;
`Remote::change_channel` has no such member behind it: it makes the range
test itself and writes the channel, so the channel becomes `v` when
`1 ≤ v ≤ 128` and stays otherwise, and the other two fields stay. -/
theorem remote_forwards_to_members (tv : TV) (cout : String) (v : Nat) :
    (Remote.toggle_state tv, cout) = TV.Member.call .toggle_state (tv, cout) ∧
      (Remote.toggle_mode tv, cout) = TV.Member.call .toggle_mode (tv, cout) ∧
      (Remote.change_channel_up tv, cout) = TV.Member.call .change_channel_up (tv, cout) ∧
      (Remote.change_channel_down tv, cout)
        = TV.Member.call .change_channel_down (tv, cout) ∧
      (tv, Remote.display_settings tv cout) = TV.Member.call .display_settings (tv, cout) ∧
      (Remote.change_channel tv v).channel = (if 1 ≤ v ∧ v ≤ 128 then v else tv.channel) ∧
      (Remote.change_channel tv v).state_mode = tv.state_mode ∧
      (Remote.change_channel tv v).padding = tv.padding := by
  refine ⟨rfl, rfl, rfl, rfl, rfl, ?_, ?_, ?_⟩
  all_goals
    unfold Remote.change_channel
    have hmax : MAXIMUM_CHANNEL = 128 := rfl
    have hmin : MINIMUM_CHANNEL = 1 := rfl
    rw [hmax, hmin]
    split <;> simp_all

/-! ## The unchecked constructor -/

/-- C13: the constructor neither checks nor clamps the channel: for every
8-bit `v` and every state argument `m` the constructed `TV` has channel
exactly `v`, so some constructions have a channel outside `[1, 128]`. -/
theorem ctor_stores_channel (m v : Nat) (hv : v < 2 ^ 8) :
    (TV.ctor m v).channel = v ∧
      (∃ c : Nat, c < 2 ^ 8 ∧
        ¬ (1 ≤ (TV.ctor m c).channel ∧ (TV.ctor m c).channel ≤ 128)) := by
  constructor
  · show v % 2 ^ 8 = v
    exact Nat.mod_eq_of_lt hv
  · refine ⟨255, by decide, ?_⟩
    show ¬ (1 ≤ 255 % 2 ^ 8 ∧ 255 % 2 ^ 8 ≤ 128)
    decide

theorem ctor_stores_channel_witness :
    (TV.ctor 3 0).channel = 0 ∧ (TV.ctor 0 129).channel = 129 ∧
      (TV.ctor 2 255).channel = 255 :=
  ⟨(ctor_stores_channel 3 0 (by decide)).1, (ctor_stores_channel 0 129 (by decide)).1,
   (ctor_stores_channel 2 255 (by decide)).1⟩

/-- C14 as stated fails: on a `TV` constructed with channel `255`,
`change_channel_up` does reset the channel to `1`. -/
theorem change_channel_up_from_255_wraps :
    (TV.ctor 3 255).change_channel_up.channel = 1 := by
  decide

/-- C14 amended: on a `TV` constructed with channel `255`, whatever the
state argument, `change_channel_up` takes its wrap branch and sets the
channel to `1`, while `change_channel_down` does not set it to `128`: it
gives `254`. -/
theorem change_channel_from_255 (m : Nat) :
    (TV.ctor m 255).change_channel_up.channel = 1 ∧
      (TV.ctor m 255).change_channel_down.channel = 254 ∧
      (TV.ctor m 255).change_channel_down.channel ≠ 128 := by
  rw [change_channel_up_eq, change_channel_down_eq]
  show (if 255 % 2 ^ 8 < 128 then (255 % 2 ^ 8 + 1) % 2 ^ 8 else 1) = 1 ∧
    (if 255 % 2 ^ 8 > 1 then (255 % 2 ^ 8 + (2 ^ 8 - 1)) % 2 ^ 8 else 128) = 254 ∧
    (if 255 % 2 ^ 8 > 1 then (255 % 2 ^ 8 + (2 ^ 8 - 1)) % 2 ^ 8 else 128) ≠ 128
  decide

/-! ## The two bits of the construction argument -/

/-- C15: for every state argument `m` and channel `c`, the constructed
`TV` is on exactly when bit 0 of `m` is set and in antenna mode exactly when
bit 1 of `m` is set; an argument `m2` equal to `m` modulo 4 constructs the
same `TV`, as does `m mod 4` itself; the stored field is below 4 after
construction and, on every state, after `toggle_state` and `toggle_mode`. -/
theorem ctor_state_mode_bits (m m2 c : Nat) (tv : TV)
    (heq : m % 4 = m2 % 4) :
    (TV.ctor m c).is_on = m.testBit 0 ∧
      (TV.ctor m c).is_antenna = m.testBit 1 ∧
      TV.ctor m c = TV.ctor m2 c ∧
      TV.ctor m c = TV.ctor (m % 4) c ∧
      (TV.ctor m c).state_mode < 4 ∧
      tv.toggle_state.state_mode < 4 ∧
      tv.toggle_mode.state_mode < 4 := by
  have hbit : ∀ i : Nat, i < 2 → (m % 2 ^ 2).testBit i = m.testBit i := by
    intro i hi
    rw [Nat.testBit_mod_two_pow]
    simp [hi]
  refine ⟨?_, ?_, ?_, ?_, ?_, ?_, ?_⟩
  · rw [TV.is_on_eq_testBit]
    exact hbit 0 (by decide)
  · rw [TV.is_antenna_eq_testBit]
    exact hbit 1 (by decide)
  · unfold TV.ctor
    have h4 : (2 : Nat) ^ 2 = 4 := rfl
    rw [h4, heq]
  · unfold TV.ctor
    have h4 : (2 : Nat) ^ 2 = 4 := rfl
    rw [h4, Nat.mod_mod]
  · exact Nat.mod_lt m (by decide)
  · exact Nat.mod_lt (tv.state_mode ^^^ OFF_ON) (by decide)
  · exact Nat.mod_lt (tv.state_mode ^^^ CABLE_ANTENNA) (by decide)

theorem ctor_state_mode_bits_witness :
    (TV.ctor 254 9).is_on = (254 : Nat).testBit 0 ∧
      (TV.ctor 254 9).is_antenna = (254 : Nat).testBit 1 ∧
      TV.ctor 254 9 = TV.ctor 2 9 ∧
      TV.ctor 254 9 = TV.ctor (254 % 4) 9 ∧
      (TV.ctor 254 9).state_mode < 4 ∧
      (TV.mk 3 0 1).toggle_state.state_mode < 4 ∧
      (TV.mk 3 0 1).toggle_mode.state_mode < 4 :=
  ctor_state_mode_bits 254 2 9 ⟨3, 0, 1⟩ (by decide)

/-! ## Up and down against each other, and outside the range -/

/-- C16: on every state whose channel is in `[1, 128]`, `change_channel_down`
after `change_channel_up` and `change_channel_up` after
`change_channel_down` both give back the whole state, the wrap points `1`
and `128` included. -/
theorem up_down_inverse (tv : TV) (hlo : 1 ≤ tv.channel) (hhi : tv.channel ≤ 128) :
    tv.change_channel_up.change_channel_down = tv ∧
      tv.change_channel_down.change_channel_up = tv := by
  obtain ⟨s, p, c⟩ := tv
  have hlo2 : 1 ≤ c := hlo
  have hhi2 : c ≤ 128 := hhi
  constructor
  · rw [change_channel_up_eq, change_channel_down_eq]
    simp only [TV.mk.injEq, true_and]
    split <;> split <;> omega
  · rw [change_channel_down_eq, change_channel_up_eq]
    simp only [TV.mk.injEq, true_and]
    split <;> split <;> omega

theorem up_down_inverse_witness :
    ((TV.mk 3 0 128).change_channel_up.change_channel_down = ⟨3, 0, 128⟩ ∧
        (TV.mk 3 0 128).change_channel_down.change_channel_up = ⟨3, 0, 128⟩) ∧
      ((TV.mk 0 0 1).change_channel_up.change_channel_down = ⟨0, 0, 1⟩ ∧
        (TV.mk 0 0 1).change_channel_down.change_channel_up = ⟨0, 0, 1⟩) :=
  ⟨up_down_inverse ⟨3, 0, 128⟩ (by decide) (by decide),
   up_down_inverse ⟨0, 0, 1⟩ (by decide) (by decide)⟩

/-- C17: from every state with an 8-bit channel `c`, in range or not, one
`change_channel_up` gives a channel in `[1, 128]`: it is `c + 1` when
`c < 128` and `1` otherwise, and the increment never leaves 8 bits. -/
theorem change_channel_up_restores_range (tv : TV) (hc : tv.channel < 2 ^ 8) :
    (1 ≤ tv.change_channel_up.channel ∧ tv.change_channel_up.channel ≤ 128) ∧
      (tv.channel < 128 → tv.change_channel_up.channel = tv.channel + 1) ∧
      (¬ tv.channel < 128 → tv.change_channel_up.channel = 1) ∧
      (tv.channel < MAXIMUM_CHANNEL → tv.channel + 1 < 2 ^ 8) := by
  rw [change_channel_up_eq]
  have hmax : MAXIMUM_CHANNEL = 128 := rfl
  rw [hmax]
  show (1 ≤ (if tv.channel < 128 then (tv.channel + 1) % 2 ^ 8 else 1) ∧
      (if tv.channel < 128 then (tv.channel + 1) % 2 ^ 8 else 1) ≤ 128) ∧
    (tv.channel < 128 →
      (if tv.channel < 128 then (tv.channel + 1) % 2 ^ 8 else 1) = tv.channel + 1) ∧
    (¬ tv.channel < 128 →
      (if tv.channel < 128 then (tv.channel + 1) % 2 ^ 8 else 1) = 1) ∧
    (tv.channel < 128 → tv.channel + 1 < 2 ^ 8)
  split <;> omega

theorem change_channel_up_restores_range_witness :
    ((TV.mk 3 0 0).change_channel_up.channel = 0 + 1) ∧
      ((TV.mk 3 0 255).change_channel_up.channel = 1) ∧
      (1 ≤ (TV.mk 3 0 200).change_channel_up.channel ∧
        (TV.mk 3 0 200).change_channel_up.channel ≤ 128) :=
  ⟨(change_channel_up_restores_range ⟨3, 0, 0⟩ (by decide)).2.1 (by decide),
   (change_channel_up_restores_range ⟨3, 0, 255⟩ (by decide)).2.2.1 (by decide),
   (change_channel_up_restores_range ⟨3, 0, 200⟩ (by decide)).1⟩

theorem repeat_down_channel (tv : TV) (hc : tv.channel < 2 ^ 8) :
    ∀ k : Nat, k + 128 ≤ tv.channel →
      (repeat_call TV.change_channel_down k tv).channel = tv.channel - k := by
  intro k
  induction k with
  | zero => intro _; rfl
  | succ j ih =>
    intro hj
    have hprev := ih (by omega)
    show (repeat_call TV.change_channel_down j tv).change_channel_down.channel
      = tv.channel - (j + 1)
    rw [change_channel_down_eq]
    show (if (repeat_call TV.change_channel_down j tv).channel > 1
        then ((repeat_call TV.change_channel_down j tv).channel + (2 ^ 8 - 1)) % 2 ^ 8
        else 128) = tv.channel - (j + 1)
    rw [hprev]
    split <;> omega

/-- C18: from a state with channel `c`, `130 ≤ c ≤ 255`, one
`change_channel_down` gives `c - 1`, still outside `[1, 128]`; `k` calls
give `c - k` for every `k ≤ c - 128`, so `c - 128` calls reach `128` and
fewer calls stay above it; from channel `0` one call gives `128`, and the
decrement is only made on a channel above `1`. -/
theorem change_channel_down_out_of_range (tv : TV)
    (hlo : 130 ≤ tv.channel) (hhi : tv.channel ≤ 255) :
    tv.change_channel_down.channel = tv.channel - 1 ∧
      ¬ (1 ≤ tv.change_channel_down.channel ∧ tv.change_channel_down.channel ≤ 128) ∧
      (repeat_call TV.change_channel_down (tv.channel - 128) tv).channel = 128 ∧
      (∀ k : Nat, k < tv.channel - 128 →
        128 < (repeat_call TV.change_channel_down k tv).channel) ∧
      (∀ s p : Nat, (TV.mk s p 0).change_channel_down.channel = 128) := by
  have hc : tv.channel < 2 ^ 8 := by
    have h : (2 : Nat) ^ 8 = 256 := rfl
    omega
  have h1 := repeat_down_channel tv hc 1 (by omega)
  have hone : tv.change_channel_down.channel = tv.channel - 1 := h1
  refine ⟨hone, ?_, ?_, ?_, ?_⟩
  · rw [hone]
    omega
  · rw [repeat_down_channel tv hc (tv.channel - 128) (by omega)]
    omega
  · intro k hk
    rw [repeat_down_channel tv hc k (by omega)]
    omega
  · intro s p
    rfl

theorem change_channel_down_out_of_range_witness :
    (TV.mk 3 0 130).change_channel_down.channel = 130 - 1 ∧
      (repeat_call TV.change_channel_down (255 - 128) ⟨3, 0, 255⟩).channel = 128 :=
  ⟨(change_channel_down_out_of_range ⟨3, 0, 130⟩ (by decide) (by decide)).1,
   (change_channel_down_out_of_range ⟨3, 0, 255⟩ (by decide) (by decide)).2.2.1⟩

end compuSUAVE_Professional
